import Mathlib

/-!
Verification of the timeblock repository's data layer.

Shallow embedding of src/data/timeofday.rs and src/data/block.rs:
u16 values are modelled as Nat (all arithmetic in the source stays far
below 2^16, so no wrap-around is reachable), Rust Option as Option,
Result as Except, and the mutating methods on Block (which take &mut self
and return Result) as functions returning the result paired with the
post-state.
-/

namespace Timeblock

/-- Embeds pub struct TimeOfDay(u16): minutes since midnight.
The u16 field is private in the source; every value the public API can
construct satisfies val < 1440. -/
structure TimeOfDay where
  val : Nat
deriving DecidableEq, Repr

/-- Derived PartialOrd/Ord on the single-field tuple struct compare the
underlying u16. -/
instance : LT TimeOfDay := ⟨fun a b => a.val < b.val⟩

instance : LE TimeOfDay := ⟨fun a b => a.val ≤ b.val⟩

instance (a b : TimeOfDay) : Decidable (a < b) :=
  inferInstanceAs (Decidable (a.val < b.val))

instance (a b : TimeOfDay) : Decidable (a ≤ b) :=
  inferInstanceAs (Decidable (a.val ≤ b.val))

/-- Embeds TimeOfDay::new(hour, minute): rejects hour > 23 or minute > 59
(the error! call is a log side effect only), otherwise stores
hour * 60 + minute. -/
def TimeOfDay.new (hour minute : Nat) : Option TimeOfDay :=
  if hour > 23 || minute > 59 then
    none
  else
    some ⟨hour * 60 + minute⟩

/-- Embeds TimeOfDay::hour: self.0 / 60. -/
def TimeOfDay.hour (t : TimeOfDay) : Nat :=
  t.val / 60

/-- Embeds TimeOfDay::minute: self.0 % 60. -/
def TimeOfDay.minute (t : TimeOfDay) : Nat :=
  t.val % 60

/-- Embeds impl From of TimeOfDay for u16: returns the raw field. -/
def TimeOfDay.toU16 (t : TimeOfDay) : Nat :=
  t.val

/-- Embeds impl TryFrom of u16 for TimeOfDay: rejects u >= 24 * 60 with
the unit error, otherwise wraps the value. -/
def TimeOfDay.tryFrom (u : Nat) : Except Unit TimeOfDay :=
  if u ≥ 24 * 60 then
    .error ()
  else
    .ok ⟨u⟩

/-- Embeds enum BlockError from src/data/block.rs. -/
inductive BlockError where
  | InvalidTime (start finish : TimeOfDay)
  | MissingRequiredField (field : String)
  | FixedBlockTimeChange
  | EmptyName
deriving DecidableEq, Repr

/-- Embeds pub struct Block from src/data/block.rs. -/
structure Block where
  start_time : TimeOfDay
  end_time : TimeOfDay
  name : String
  description : Option String
  is_fixed : Bool
deriving DecidableEq, Repr

/-- Embeds Block::set_time(&mut self, start_time, end_time): returns the
Result together with the post-state of the block. The range check comes
first in the source, then the fixed-flag check; only then are both fields
assigned. -/
def Block.set_time (b : Block) (start_time end_time : TimeOfDay) :
    Except BlockError Unit × Block :=
  if end_time ≤ start_time then
    (.error (.InvalidTime start_time end_time), b)
  else if b.is_fixed then
    (.error .FixedBlockTimeChange, b)
  else
    (.ok (), { b with start_time := start_time, end_time := end_time })

/-- Embeds Block::set_name(&mut self, name): rejects the empty string
with EmptyName, otherwise overwrites the name field. -/
def Block.set_name (b : Block) (name : String) :
    Except BlockError Unit × Block :=
  if name.isEmpty then
    (.error .EmptyName, b)
  else
    (.ok (), { b with name := name })

/-- Embeds Block::set_description(&mut self, description): unconditional
assignment, no Result. -/
def Block.set_description (b : Block) (description : Option String) : Block :=
  { b with description := description }

/-- Embeds Block::set_is_fixed(&mut self, is_fixed): unconditional
assignment, no Result. -/
def Block.set_is_fixed (b : Block) (f : Bool) : Block :=
  { b with is_fixed := f }

/-- Embeds pub struct BlockBuilder: every field optional; the description
field is a nested Option (the outer layer records whether the setter was
ever called). -/
structure BlockBuilder where
  start_time : Option TimeOfDay
  end_time : Option TimeOfDay
  name : Option String
  description : Option (Option String)
  is_fixed : Option Bool
deriving DecidableEq, Repr

/-- Embeds BlockBuilder::new: all fields None. -/
def BlockBuilder.new : BlockBuilder :=
  { start_time := none, end_time := none, name := none,
    description := none, is_fixed := none }

/-- Embeds the builder method start_time (chained setter). -/
def BlockBuilder.withStartTime (bb : BlockBuilder) (t : TimeOfDay) : BlockBuilder :=
  { bb with start_time := some t }

/-- Embeds the builder method end_time (chained setter). -/
def BlockBuilder.withEndTime (bb : BlockBuilder) (t : TimeOfDay) : BlockBuilder :=
  { bb with end_time := some t }

/-- Embeds the builder method name (chained setter). -/
def BlockBuilder.withName (bb : BlockBuilder) (n : String) : BlockBuilder :=
  { bb with name := some n }

/-- Embeds the builder method description (chained setter): wraps the
argument in Some, so calling it with None is recorded as Some(None). -/
def BlockBuilder.withDescription (bb : BlockBuilder) (d : Option String) : BlockBuilder :=
  { bb with description := some d }

/-- Embeds the builder method is_fixed (chained setter). -/
def BlockBuilder.withIsFixed (bb : BlockBuilder) (f : Bool) : BlockBuilder :=
  { bb with is_fixed := some f }

/-- Embeds BlockBuilder::build: the three ok_or lines check start_time,
end_time and name in that order; description defaults to None and
is_fixed to false (the warn! call is a log side effect only); finally the
range start_time >= end_time is rejected as InvalidTime. -/
def BlockBuilder.build (bb : BlockBuilder) : Except BlockError Block :=
  match bb.start_time with
  | none => .error (.MissingRequiredField ("start_time"))
  | some start_time =>
    match bb.end_time with
    | none => .error (.MissingRequiredField ("end_time"))
    | some end_time =>
      match bb.name with
      | none => .error (.MissingRequiredField ("name"))
      | some name =>
        let description := bb.description.getD none
        let is_fixed := bb.is_fixed.getD false
        if end_time ≤ start_time then
          .error (.InvalidTime start_time end_time)
        else
          .ok { start_time := start_time, end_time := end_time, name := name,
                description := description, is_fixed := is_fixed }

/-- One call to a public mutator of Block. -/
inductive BlockOp where
  | opSetTime (s e : TimeOfDay)
  | opSetName (n : String)
  | opSetDescription (d : Option String)
  | opSetIsFixed (f : Bool)
deriving Repr

/-- The state of the block after one mutator call, whether or not the
call succeeded. -/
def applyOp (b : Block) : BlockOp → Block
  | .opSetTime s e => (b.set_time s e).2
  | .opSetName n => (b.set_name n).2
  | .opSetDescription d => b.set_description d
  | .opSetIsFixed f => b.set_is_fixed f

/-- The state after a finite sequence of mutator calls. -/
def applyOps (b : Block) : List BlockOp → Block
  | [] => b
  | op :: ops => applyOps (applyOp b op) ops

/-- Insertion of a TimeOfDay into a list sorted by the derived order. -/
def insertTime (t : TimeOfDay) : List TimeOfDay → List TimeOfDay
  | [] => [t]
  | x :: xs => if t ≤ x then t :: x :: xs else x :: insertTime t xs

/-- Sorting a list of TimeOfDay values by the derived order (the source's
v.sort() uses exactly the derived Ord). -/
def sortTimes : List TimeOfDay → List TimeOfDay
  | [] => []
  | x :: xs => insertTime x (sortTimes xs)

/-- Decidable equality for Except values, used to evaluate results of the
fallible operations on concrete inputs. -/
instance exceptDecEq {ε α : Type} [DecidableEq ε] [DecidableEq α] :
    DecidableEq (Except ε α) := fun a b =>
  match a, b with
  | .ok x, .ok y =>
    if h : x = y then .isTrue (by rw [h])
    else .isFalse (by intro hc; cases hc; exact h rfl)
  | .error x, .error y =>
    if h : x = y then .isTrue (by rw [h])
    else .isFalse (by intro hc; cases hc; exact h rfl)
  | .ok _, .error _ => .isFalse (by intro hc; cases hc)
  | .error _, .ok _ => .isFalse (by intro hc; cases hc)

/-- A concrete builder state: 09:00 to 10:00, named, nothing optional
supplied. -/
def sampleBuilder : BlockBuilder :=
  { start_time := some ⟨540⟩, end_time := some ⟨600⟩, name := some ("work"),
    description := none, is_fixed := none }

/-- The block that sampleBuilder builds. -/
def sampleBuiltBlock : Block :=
  { start_time := ⟨540⟩, end_time := ⟨600⟩, name := "work",
    description := none, is_fixed := false }

/-- A concrete non-fixed block. -/
def sampleBlock : Block :=
  { start_time := ⟨540⟩, end_time := ⟨600⟩, name := "meeting",
    description := some ("sync"), is_fixed := false }

/-- A concrete fixed block. -/
def sampleFixedBlock : Block :=
  { start_time := ⟨540⟩, end_time := ⟨600⟩, name := "meeting",
    description := none, is_fixed := true }

/-- The derived order on TimeOfDay unfolds to the order of the raw minute
counts. -/
theorem TimeOfDay.lt_def (a b : TimeOfDay) : a < b ↔ a.val < b.val :=
  Iff.rfl

/-- The derived non-strict order on TimeOfDay unfolds to the order of the
raw minute counts. -/
theorem TimeOfDay.le_def (a b : TimeOfDay) : a ≤ b ↔ a.val ≤ b.val :=
  Iff.rfl

/-- Helper: build fails on a missing start_time. -/
theorem build_start_missing (bb : BlockBuilder) (h : bb.start_time = none) :
    bb.build = .error (.MissingRequiredField ("start_time")) := by
  obtain ⟨so, eo, no, d, f⟩ := bb
  change so = none at h
  subst h
  rfl

/-- Helper: with start_time present, build fails on a missing end_time. -/
theorem build_end_missing (bb : BlockBuilder) (s : TimeOfDay)
    (hs : bb.start_time = some s) (h : bb.end_time = none) :
    bb.build = .error (.MissingRequiredField ("end_time")) := by
  obtain ⟨so, eo, no, d, f⟩ := bb
  change so = some s at hs
  change eo = none at h
  subst hs
  subst h
  rfl

/-- Helper: with both times present, build fails on a missing name. -/
theorem build_name_missing (bb : BlockBuilder) (s e : TimeOfDay)
    (hs : bb.start_time = some s) (he : bb.end_time = some e)
    (h : bb.name = none) :
    bb.build = .error (.MissingRequiredField ("name")) := by
  obtain ⟨so, eo, no, d, f⟩ := bb
  change so = some s at hs
  change eo = some e at he
  change no = none at h
  subst hs
  subst he
  subst h
  rfl

/-- Helper: with all required fields present and an inverted or empty
range, build fails with InvalidTime. -/
theorem build_invalid_range (bb : BlockBuilder) (s e : TimeOfDay)
    (n : String) (hs : bb.start_time = some s) (he : bb.end_time = some e)
    (hn : bb.name = some n) (hle : e ≤ s) :
    bb.build = .error (.InvalidTime s e) := by
  obtain ⟨so, eo, no, d, f⟩ := bb
  change so = some s at hs
  change eo = some e at he
  change no = some n at hn
  subst hs
  subst he
  subst hn
  simp [BlockBuilder.build, hle]

/-- Helper: with all required fields present and a valid range, build
succeeds and assembles the block from the supplied fields and the
defaults. -/
theorem build_ok (bb : BlockBuilder) (s e : TimeOfDay) (n : String)
    (hs : bb.start_time = some s) (he : bb.end_time = some e)
    (hn : bb.name = some n) (hlt : ¬ e ≤ s) :
    bb.build = .ok { start_time := s, end_time := e, name := n,
                     description := bb.description.getD none,
                     is_fixed := bb.is_fixed.getD false } := by
  obtain ⟨so, eo, no, d, f⟩ := bb
  change so = some s at hs
  change eo = some e at he
  change no = some n at hn
  subst hs
  subst he
  subst hn
  simp [BlockBuilder.build, hlt]

/-- Helper: inversion of a successful build. -/
theorem build_ok_inv (bb : BlockBuilder) (blk : Block)
    (h : bb.build = .ok blk) :
    ∃ s e n, bb.start_time = some s ∧ bb.end_time = some e ∧
      bb.name = some n ∧ ¬ e ≤ s ∧
      blk = { start_time := s, end_time := e, name := n,
              description := bb.description.getD none,
              is_fixed := bb.is_fixed.getD false } := by
  obtain ⟨so, eo, no, d, f⟩ := bb
  cases so with
  | none => simp [BlockBuilder.build] at h
  | some s =>
    cases eo with
    | none => simp [BlockBuilder.build] at h
    | some e =>
      cases no with
      | none => simp [BlockBuilder.build] at h
      | some n =>
        by_cases hle : e ≤ s
        · simp [BlockBuilder.build, hle] at h
        · simp [BlockBuilder.build, hle] at h
          exact ⟨s, e, n, rfl, rfl, rfl, hle, h.symm⟩

/-- Helper: a freshly built block satisfies the range invariant. -/
theorem build_ok_range (bb : BlockBuilder) (blk : Block)
    (h : bb.build = .ok blk) : blk.start_time < blk.end_time := by
  obtain ⟨s, e, n, _, _, _, hlt, hblk⟩ := build_ok_inv bb blk h
  subst hblk
  rw [TimeOfDay.le_def] at hlt
  change s.val < e.val
  omega

/-- Helper: every single mutator call preserves the range invariant. -/
theorem applyOp_range (b : Block) (op : BlockOp)
    (h : b.start_time < b.end_time) :
    (applyOp b op).start_time < (applyOp b op).end_time := by
  cases op with
  | opSetTime s e =>
    simp only [applyOp, Block.set_time]
    by_cases hle : e ≤ s
    · simp [hle]
      exact h
    · by_cases hf : b.is_fixed
      · simp [hle, hf]
        exact h
      · simp [hle, hf]
        rw [TimeOfDay.lt_def]
        rw [TimeOfDay.le_def] at hle
        omega
  | opSetName n =>
    simp only [applyOp, Block.set_name]
    by_cases he : n.isEmpty
    · simp [he]
      exact h
    · simp [he]
      exact h
  | opSetDescription d => exact h
  | opSetIsFixed f => exact h

/-- Helper: every finite sequence of mutator calls preserves the range
invariant. -/
theorem applyOps_range (b : Block) (ops : List BlockOp)
    (h : b.start_time < b.end_time) :
    (applyOps b ops).start_time < (applyOps b ops).end_time := by
  induction ops generalizing b with
  | nil => exact h
  | cons op ops ih => exact ih (applyOp b op) (applyOp_range b op h)

/-- C1: every Block obtained from a successful BlockBuilder.build followed
by any finite sequence of the public mutators set_time, set_name,
set_description and set_is_fixed satisfies start_time < end_time. -/
theorem C1_range_invariant (bb : BlockBuilder) (blk : Block)
    (ops : List BlockOp) (h : bb.build = .ok blk) :
    (applyOps blk ops).start_time < (applyOps blk ops).end_time :=
  applyOps_range blk ops (build_ok_range bb blk h)

/-- Witness for C1 at a concrete builder and mutator sequence. -/
theorem C1_range_invariant_witness :
    (applyOps sampleBuiltBlock
      [.opSetTime ⟨720⟩ ⟨780⟩, .opSetIsFixed true,
       .opSetTime ⟨60⟩ ⟨120⟩]).start_time <
    (applyOps sampleBuiltBlock
      [.opSetTime ⟨720⟩ ⟨780⟩, .opSetIsFixed true,
       .opSetTime ⟨60⟩ ⟨120⟩]).end_time :=
  C1_range_invariant sampleBuilder sampleBuiltBlock
    [.opSetTime ⟨720⟩ ⟨780⟩, .opSetIsFixed true, .opSetTime ⟨60⟩ ⟨120⟩] rfl

/-- C2 counterexample: on a fixed block, set_time with an invalid range
(12:00 to 12:00) fails with InvalidTime, not FixedBlockTimeChange, because
the source checks the range before the fixed flag. -/
theorem C2_counterexample :
    sampleFixedBlock.is_fixed = true ∧
    (sampleFixedBlock.set_time ⟨720⟩ ⟨720⟩).1
      = .error (.InvalidTime ⟨720⟩ ⟨720⟩) ∧
    (sampleFixedBlock.set_time ⟨720⟩ ⟨720⟩).1
      ≠ .error .FixedBlockTimeChange := by
  refine ⟨rfl, rfl, ?_⟩
  intro hc
  have : (BlockError.InvalidTime ⟨720⟩ ⟨720⟩) = BlockError.FixedBlockTimeChange :=
    Except.error.inj hc
  cases this

/-- C2 (amended): on every fixed block, set_time with a valid range
(newStart < newEnd) fails with FixedBlockTimeChange, and every set_time
call leaves start_time and end_time unchanged. -/
theorem C2_fixed_immutability (b : Block) (s e : TimeOfDay)
    (hf : b.is_fixed = true) :
    (s < e → (b.set_time s e).1 = .error .FixedBlockTimeChange) ∧
    (b.set_time s e).2.start_time = b.start_time ∧
    (b.set_time s e).2.end_time = b.end_time := by
  refine ⟨?_, ?_, ?_⟩
  · intro hlt
    have hle : ¬ e ≤ s := by
      rw [TimeOfDay.le_def]
      rw [TimeOfDay.lt_def] at hlt
      omega
    simp [Block.set_time, hle, hf]
  · by_cases hle : e ≤ s
    · simp [Block.set_time, hle]
    · simp [Block.set_time, hle, hf]
  · by_cases hle : e ≤ s
    · simp [Block.set_time, hle]
    · simp [Block.set_time, hle, hf]

/-- Witness for the amended C2 at a concrete fixed block. -/
theorem C2_fixed_immutability_witness :
    (sampleFixedBlock.set_time ⟨660⟩ ⟨780⟩).1 = .error .FixedBlockTimeChange ∧
    (sampleFixedBlock.set_time ⟨660⟩ ⟨780⟩).2.start_time
      = sampleFixedBlock.start_time ∧
    (sampleFixedBlock.set_time ⟨660⟩ ⟨780⟩).2.end_time
      = sampleFixedBlock.end_time :=
  ⟨(C2_fixed_immutability sampleFixedBlock ⟨660⟩ ⟨780⟩ rfl).1 (by decide),
   (C2_fixed_immutability sampleFixedBlock ⟨660⟩ ⟨780⟩ rfl).2.1,
   (C2_fixed_immutability sampleFixedBlock ⟨660⟩ ⟨780⟩ rfl).2.2⟩

/-- C3: on a non-fixed block, set_time fails with InvalidTime exactly when
the new range is inverted or empty; on that error the block is entirely
unchanged; on success both time fields are replaced and nothing else
changes. -/
theorem C3_set_time_unfixed (b : Block) (s e : TimeOfDay)
    (hf : b.is_fixed = false) :
    ((b.set_time s e).1 = .error (.InvalidTime s e) ↔ e ≤ s) ∧
    (e ≤ s → (b.set_time s e).2 = b) ∧
    (¬ e ≤ s →
      (b.set_time s e).1 = .ok () ∧
      (b.set_time s e).2 = { b with start_time := s, end_time := e }) := by
  by_cases hle : e ≤ s
  · refine ⟨?_, fun _ => ?_, fun hc => absurd hle hc⟩
    · simp [Block.set_time, hle]
    · simp [Block.set_time, hle]
  · refine ⟨?_, fun hc => absurd hc hle, fun _ => ?_⟩
    · simp [Block.set_time, hle, hf]
    · simp [Block.set_time, hle, hf]

/-- Witness for C3 at a concrete non-fixed block. -/
theorem C3_set_time_unfixed_witness :
    (sampleBlock.set_time ⟨60⟩ ⟨120⟩).1 = .ok () ∧
    (sampleBlock.set_time ⟨60⟩ ⟨120⟩).2
      = { sampleBlock with start_time := ⟨60⟩, end_time := ⟨120⟩ } :=
  (C3_set_time_unfixed sampleBlock ⟨60⟩ ⟨120⟩ rfl).2.2 (by decide)

/-- C4: build reports the first missing field in the fixed order
start_time, end_time, name; only with all three present is the range
checked, failing with InvalidTime exactly when start_time is not before
end_time, and otherwise succeeding with the supplied fields. -/
theorem C4_build_validation_order (bb : BlockBuilder) :
    (bb.start_time = none →
      bb.build = .error (.MissingRequiredField ("start_time"))) ∧
    (∀ s, bb.start_time = some s → bb.end_time = none →
      bb.build = .error (.MissingRequiredField ("end_time"))) ∧
    (∀ s e, bb.start_time = some s → bb.end_time = some e →
      bb.name = none →
      bb.build = .error (.MissingRequiredField ("name"))) ∧
    (∀ s e n, bb.start_time = some s → bb.end_time = some e →
      bb.name = some n →
      ((bb.build = .error (.InvalidTime s e)) ↔ e ≤ s) ∧
      (¬ e ≤ s →
        bb.build = .ok { start_time := s, end_time := e, name := n,
                         description := bb.description.getD none,
                         is_fixed := bb.is_fixed.getD false })) := by
  refine ⟨build_start_missing bb,
    fun s hs he => build_end_missing bb s hs he,
    fun s e hs he hn => build_name_missing bb s e hs he hn,
    fun s e n hs he hn =>
      ⟨⟨?_, fun hle => build_invalid_range bb s e n hs he hn hle⟩,
       fun hlt => build_ok bb s e n hs he hn hlt⟩⟩
  intro h
  by_cases hle : e ≤ s
  · exact hle
  · rw [build_ok bb s e n hs he hn hle] at h
    cases h

/-- Witness for C4 at concrete builder states covering each branch. -/
theorem C4_build_validation_order_witness :
    BlockBuilder.new.build = .error (.MissingRequiredField ("start_time")) ∧
    (BlockBuilder.new.withStartTime ⟨540⟩).build
      = .error (.MissingRequiredField ("end_time")) ∧
    ((BlockBuilder.new.withStartTime ⟨540⟩).withEndTime ⟨600⟩).build
      = .error (.MissingRequiredField ("name")) ∧
    (((BlockBuilder.new.withStartTime ⟨600⟩).withEndTime ⟨600⟩).withName
        ("w")).build = .error (.InvalidTime ⟨600⟩ ⟨600⟩) ∧
    sampleBuilder.build = .ok sampleBuiltBlock :=
  ⟨(C4_build_validation_order BlockBuilder.new).1 rfl,
   (C4_build_validation_order _).2.1 ⟨540⟩ rfl rfl,
   (C4_build_validation_order _).2.2.1 ⟨540⟩ ⟨600⟩ rfl rfl rfl,
   ((C4_build_validation_order _).2.2.2 ⟨600⟩ ⟨600⟩ ("w") rfl rfl rfl).1.mpr
     (by decide),
   ((C4_build_validation_order sampleBuilder).2.2.2 ⟨540⟩ ⟨600⟩ ("work")
     rfl rfl rfl).2 (by decide)⟩

/-- Helper: closed form of TimeOfDay.new with a propositional guard. -/
theorem new_eq (h m : Nat) :
    TimeOfDay.new h m
      = if 23 < h ∨ 59 < m then none else some ⟨h * 60 + m⟩ := by
  unfold TimeOfDay.new
  split
  · rename_i hc
    simp at hc
    rw [if_pos hc]
  · rename_i hc
    simp at hc
    rw [if_neg (by omega)]

/-- Helper: closed form of TimeOfDay.tryFrom with a simplified guard. -/
theorem tryFrom_eq (u : Nat) :
    TimeOfDay.tryFrom u = if 1440 ≤ u then .error () else .ok ⟨u⟩ :=
  rfl

/-- C5: TimeOfDay.new succeeds exactly on hours up to 23 and minutes up
to 59 and otherwise returns none; tryFrom succeeds exactly on raw counts
up to 1439 and otherwise returns the error; in particular 23:59 is
accepted and 24:00 and 00:60 are rejected. -/
theorem C5_timeofday_construction :
    (∀ h m : Nat, (TimeOfDay.new h m).isSome = true ↔ (h ≤ 23 ∧ m ≤ 59)) ∧
    (∀ h m : Nat, TimeOfDay.new h m = none ↔ ¬ (h ≤ 23 ∧ m ≤ 59)) ∧
    (∀ u : Nat, (TimeOfDay.tryFrom u).isOk = true ↔ u ≤ 1439) ∧
    (∀ u : Nat, TimeOfDay.tryFrom u = .error () ↔ ¬ u ≤ 1439) ∧
    TimeOfDay.new 23 59 = some ⟨1439⟩ ∧
    TimeOfDay.new 24 0 = none ∧
    TimeOfDay.new 0 60 = none := by
  refine ⟨fun h m => ?_, fun h m => ?_, fun u => ?_, fun u => ?_,
    by decide, by decide, by decide⟩
  · rw [new_eq]
    by_cases hc : 23 < h ∨ 59 < m
    · rw [if_pos hc]
      simp
      omega
    · rw [if_neg hc]
      simp
      omega
  · rw [new_eq]
    by_cases hc : 23 < h ∨ 59 < m
    · rw [if_pos hc]
      simp
      omega
    · rw [if_neg hc]
      simp
      omega
  · rw [tryFrom_eq]
    by_cases hc : 1440 ≤ u
    · rw [if_pos hc]
      simp [Except.isOk, Except.toBool]
      omega
    · rw [if_neg hc]
      simp [Except.isOk, Except.toBool]
      omega
  · rw [tryFrom_eq]
    by_cases hc : 1440 ≤ u
    · rw [if_pos hc]
      simp
      omega
    · rw [if_neg hc]
      simp
      omega

/-- C6: for every in-range pair, construction followed by the hour and
minute accessors returns the original pair; and for every TimeOfDay
carrying the private-field invariant, toMinutes then fromMinutes is the
identity. -/
theorem C6_roundtrip :
    (∀ h m : Nat, h ≤ 23 → m ≤ 59 →
      ∃ t, TimeOfDay.new h m = some t ∧ t.hour = h ∧ t.minute = m) ∧
    (∀ t : TimeOfDay, t.val ≤ 1439 →
      TimeOfDay.tryFrom t.toU16 = .ok t) := by
  constructor
  · intro h m hh hm
    refine ⟨⟨h * 60 + m⟩, ?_, ?_, ?_⟩
    · rw [new_eq, if_neg (by omega)]
    · show (h * 60 + m) / 60 = h
      omega
    · show (h * 60 + m) % 60 = m
      omega
  · intro t ht
    obtain ⟨v⟩ := t
    change v ≤ 1439 at ht
    rw [show TimeOfDay.toU16 ⟨v⟩ = v from rfl, tryFrom_eq,
      if_neg (by omega)]

/-- Witness for C6 at 09:30 and raw count 570. -/
theorem C6_roundtrip_witness :
    (∃ t, TimeOfDay.new 9 30 = some t ∧ t.hour = 9 ∧ t.minute = 30) ∧
    TimeOfDay.tryFrom (TimeOfDay.toU16 ⟨570⟩) = .ok ⟨570⟩ :=
  ⟨C6_roundtrip.1 9 30 (by decide) (by decide),
   C6_roundtrip.2 ⟨570⟩ (by decide)⟩

/-- C7: the derived order and equality on TimeOfDay agree with those of
the raw minute counts, and sorting 12:00, 01:30, 00:45, 23:59 by that
order yields 00:45, 01:30, 12:00, 23:59. -/
theorem C7_order_by_minutes :
    (∀ a b : TimeOfDay, a < b ↔ a.val < b.val) ∧
    (∀ a b : TimeOfDay, a = b ↔ a.val = b.val) ∧
    TimeOfDay.new 12 0 = some ⟨720⟩ ∧
    TimeOfDay.new 1 30 = some ⟨90⟩ ∧
    TimeOfDay.new 0 45 = some ⟨45⟩ ∧
    TimeOfDay.new 23 59 = some ⟨1439⟩ ∧
    sortTimes [⟨720⟩, ⟨90⟩, ⟨45⟩, ⟨1439⟩] = [⟨45⟩, ⟨90⟩, ⟨720⟩, ⟨1439⟩] := by
  refine ⟨fun a b => Iff.rfl, fun a b => ?_, by decide, by decide,
    by decide, by decide, by decide⟩
  constructor
  · intro h
    rw [h]
  · intro h
    obtain ⟨va⟩ := a
    obtain ⟨vb⟩ := b
    simp only at h
    rw [h]

/-- C8: in set_time the range check precedes the fixed-flag check, so a
fixed block given an inverted or empty range gets InvalidTime, not
FixedBlockTimeChange. -/
theorem C8_range_before_fixed (b : Block) (s e : TimeOfDay)
    (_hf : b.is_fixed = true) (hle : e ≤ s) :
    (b.set_time s e).1 = .error (.InvalidTime s e) := by
  simp [Block.set_time, hle]

/-- Witness for C8 at a concrete fixed block and empty range. -/
theorem C8_range_before_fixed_witness :
    (sampleFixedBlock.set_time ⟨300⟩ ⟨240⟩).1
      = .error (.InvalidTime ⟨300⟩ ⟨240⟩) :=
  C8_range_before_fixed sampleFixedBlock ⟨300⟩ ⟨240⟩ rfl (by decide)

/-- C9: set_description and set_is_fixed touch only their own field;
set_name never touches the time fields, the description or the fixed
flag, and on the EmptyName error it also leaves the name unchanged. -/
theorem C9_mutator_frame (b : Block) (d : Option String) (f : Bool)
    (n : String) :
    ((b.set_description d).start_time = b.start_time ∧
     (b.set_description d).end_time = b.end_time ∧
     (b.set_description d).name = b.name ∧
     (b.set_description d).is_fixed = b.is_fixed) ∧
    ((b.set_is_fixed f).start_time = b.start_time ∧
     (b.set_is_fixed f).end_time = b.end_time ∧
     (b.set_is_fixed f).name = b.name ∧
     (b.set_is_fixed f).description = b.description) ∧
    ((b.set_name n).2.start_time = b.start_time ∧
     (b.set_name n).2.end_time = b.end_time ∧
     (b.set_name n).2.description = b.description ∧
     (b.set_name n).2.is_fixed = b.is_fixed) ∧
    ((b.set_name n).1 = .error .EmptyName → (b.set_name n).2.name = b.name) := by
  refine ⟨⟨rfl, rfl, rfl, rfl⟩, ⟨rfl, rfl, rfl, rfl⟩, ?_, ?_⟩
  · by_cases he : n.isEmpty
    · simp [Block.set_name, he]
    · simp [Block.set_name, he]
  · intro herr
    by_cases he : n.isEmpty
    · simp [Block.set_name, he]
    · simp [Block.set_name, he] at herr

/-- Witness for C9: a failing set_name call on a concrete block keeps the
old name. -/
theorem C9_mutator_frame_witness :
    (sampleBlock.set_name ("")).2.name = sampleBlock.name :=
  (C9_mutator_frame sampleBlock none false ("")).2.2.2 (by rfl)

/-- C10: a builder whose description setter was never called and one
called with None build indistinguishable blocks; in both the block's
description is absent. -/
theorem C10_description_collapse (bb : BlockBuilder)
    (hd : bb.description = none) :
    (bb.withDescription none).build = bb.build ∧
    (∀ blk, bb.build = .ok blk → blk.description = none) := by
  obtain ⟨so, eo, no, d, f⟩ := bb
  change d = none at hd
  subst hd
  constructor
  · cases so with
    | none => rfl
    | some s =>
      cases eo with
      | none => rfl
      | some e =>
        cases no with
        | none => rfl
        | some n => rfl
  · intro blk hb
    obtain ⟨s, e, n, hs, he, hn, hlt, hblk⟩ := build_ok_inv _ blk hb
    subst hblk
    rfl

/-- Witness for C10 at a concrete builder with the description never
set. -/
theorem C10_description_collapse_witness :
    (sampleBuilder.withDescription none).build = sampleBuilder.build ∧
    sampleBuiltBlock.description = none :=
  ⟨(C10_description_collapse sampleBuilder rfl).1,
   (C10_description_collapse sampleBuilder rfl).2 sampleBuiltBlock rfl⟩

end Timeblock
